import Mathlib

/-!
Verification of the request-scoped authorization and multi-tenant
data-access layer of the SupplyChainLens backend.

The definitions below are a shallow embedding of the TypeScript source:
  * the Prisma-backed relational store becomes an explicit `DB` record of
    row lists, and each store query becomes a `List.find?` / `List.filter`
    over those lists;
  * the express middleware `authenticateToken` / `optionalAuth`
    (src/unnamed/part_006) and the route handlers for auth
    (src/backend/src/routes/auth.ts), organizations
    (src/backend/src/routes/organizations.ts), suppliers
    (src/unnamed/part_005) and alerts (src/unnamed/part_004) become pure
    functions from a `DB`, a clock value and the request inputs to an
    `ApiResult` (and a successor `DB` where the handler writes);
  * the external collaborators — the `jsonwebtoken` verifier/signer, the
    `bcryptjs` hash/compare pair, Prisma id generation and the
    `express-validator` outcome — are passed in as function/boolean
    parameters, mirroring their role as consumed collaborators;
  * `CustomError(message, statusCode)` becomes the `err` constructor
    carrying the same message string and status code; times are `Nat`
    milliseconds.
-/

namespace SupplyChainLens

/-- A `User` row: identity record with unique email, hashed password,
global role string and active flag (Prisma model `User`). -/
structure User where
  id : String
  email : String
  password : String
  firstName : String
  lastName : String
  company : Option String
  role : String
  isActive : Bool
deriving DecidableEq, Repr

/-- An `OrganizationUser` row (the Membership join entity): a user, an
organization and a per-organization role string (OWNER/ADMIN/MEMBER/VIEWER). -/
structure OrganizationUser where
  userId : String
  organizationId : String
  role : String
deriving DecidableEq, Repr

/-- A `UserSession` row: one issued token with its owner and expiry. -/
structure UserSession where
  userId : String
  token : String
  expiresAt : Nat
deriving DecidableEq, Repr

/-- An `Organization` row: the tenant boundary. -/
structure Organization where
  id : String
  name : String
  description : Option String
  industry : Option String
deriving DecidableEq, Repr

/-- A `Supplier` row: tenant-owned resource carrying its `organizationId`. -/
structure Supplier where
  id : String
  name : String
  country : String
  industry : Option String
  organizationId : String
  createdAt : Nat
deriving DecidableEq, Repr

/-- An `Alert` row (the fields the alert routes touch). -/
structure Alert where
  id : String
  userId : String
  organizationId : String
  isRead : Bool
deriving DecidableEq, Repr

/-- The relational store: one list of rows per Prisma model used by the
embedded handlers. -/
structure DB where
  users : List User
  organizationUsers : List OrganizationUser
  userSessions : List UserSession
  organizations : List Organization
  suppliers : List Supplier
  alerts : List Alert
deriving DecidableEq, Repr

/-- The claims `jwt.sign` embeds and `jwt.verify` returns:
`{ userId, email }` (plus library-handled `iat`/`exp`, which live inside
the external verifier parameter). -/
structure JwtClaims where
  userId : String
  email : String
deriving DecidableEq, Repr

/-- The Authorization Context `req.user` attached by the middleware. -/
structure AuthUser where
  id : String
  email : String
  role : String
  organizationId : Option String
deriving DecidableEq, Repr

/-- Outcome of the authentication middleware: either an attached context,
or a `CustomError(message, statusCode)` passed to `next`. -/
inductive AuthResult where
  | ok (user : AuthUser)
  | err (msg : String) (status : Nat)
deriving DecidableEq, Repr

/-- Outcome of a route handler: an HTTP status with response data, or a
`CustomError(message, statusCode)`. -/
inductive ApiResult (α : Type) where
  | ok (status : Nat) (data : α)
  | err (msg : String) (status : Nat)
deriving DecidableEq, Repr

/-- The HTTP status of a handler outcome. -/
def ApiResult.statusOf {α : Type} : ApiResult α → Nat
  | .ok s _ => s
  | .err _ s => s

/-- Split a character list at every space, the semantics of the
JavaScript `split(' ')` call (single-character separator, empty fields
kept). -/
def splitOnSpaceAux : List Char → List Char → List (List Char)
  | [], acc => [acc.reverse]
  | c :: cs, acc =>
    if c = ' ' then acc.reverse :: splitOnSpaceAux cs []
    else splitOnSpaceAux cs (c :: acc)

/-- `s.split(' ')` on a string. -/
def splitOnSpace (s : String) : List String :=
  (splitOnSpaceAux s.toList []).map (fun l => String.mk l)

/-- `authHeader && authHeader.split(' ')[1]`: the bearer-token extraction
used by `authenticateToken`, `optionalAuth` and the logout handler.  A
missing header, a header without a second space-separated field, or an
empty second field (all falsy in the source) yield no token. -/
def extractToken (authHeader : Option String) : Option String :=
  match authHeader with
  | none => none
  | some h =>
    match (splitOnSpace h).get? 1 with
    | none => none
    | some t => if t = "" then none else some t

/-- Predicate of the `prisma.user.findUnique({ where: { id: decoded.userId } })`
lookup. -/
def userPred (claims : JwtClaims) : User → Bool :=
  fun u => u.id == claims.userId

/-- Predicate of the `prisma.userSession.findFirst` lookup: same user, same
token value, and `expiresAt` strictly in the future. -/
def sessPred (user : User) (token : String) (now : Nat) : UserSession → Bool :=
  fun s => s.userId == user.id && s.token == token && decide (now < s.expiresAt)

/-- The strict Session Validator `authenticateToken` (src/unnamed/part_006,
lines 394-460).  `verify` is the external `jwt.verify` collaborator: it
returns the embedded claims when the signature and the embedded expiry
claim check out, and nothing otherwise (the `JsonWebTokenError` branch).
The source checks, in order: token extraction, signature, user existence
and `isActive` (memberships are loaded by the same `findUnique` select),
then the session row, and finally attaches `req.user` with
`organizationId = user.organizations[0]?.organizationId`. -/
def authenticateToken (verify : String → Option JwtClaims) (db : DB) (now : Nat)
    (authHeader : Option String) : AuthResult :=
  match extractToken authHeader with
  | none => .err "Access token required" 401
  | some token =>
    match verify token with
    | none => .err "Invalid token" 401
    | some decoded =>
      match db.users.find? (userPred decoded) with
      | none => .err "User not found or inactive" 401
      | some user =>
        let organizations := db.organizationUsers.filter (fun m => m.userId == user.id)
        if user.isActive = false then .err "User not found or inactive" 401
        else
          match db.userSessions.find? (sessPred user token now) with
          | none => .err "Session expired" 401
          | some _ =>
            .ok { id := user.id, email := user.email, role := user.role,
                  organizationId := organizations.head?.map (fun m => m.organizationId) }

/-- Modelled from the spec (§4.2): the Session Validator with the
validation order the spec prescribes — session-row check (step 3) before
the user `isActive` check (step 4).  Written only for comparison with the
source-order `authenticateToken`; the reject messages are the source's. -/
def authenticateTokenSpecOrder (verify : String → Option JwtClaims) (db : DB) (now : Nat)
    (authHeader : Option String) : AuthResult :=
  match extractToken authHeader with
  | none => .err "Access token required" 401
  | some token =>
    match verify token with
    | none => .err "Invalid token" 401
    | some decoded =>
      match db.userSessions.find? (fun s => s.token == token && decide (now < s.expiresAt)) with
      | none => .err "Session expired" 401
      | some _ =>
        match db.users.find? (userPred decoded) with
        | none => .err "User not found or inactive" 401
        | some user =>
          if user.isActive = false then .err "User not found or inactive" 401
          else
            let organizations := db.organizationUsers.filter (fun m => m.userId == user.id)
            .ok { id := user.id, email := user.email, role := user.role,
                  organizationId := organizations.head?.map (fun m => m.organizationId) }

/-- The optional-auth middleware `optionalAuth` (src/unnamed/part_006,
lines 513-551).  It never rejects: the result is the attached context when
one is attached, and `none` when the request proceeds anonymously.  The
source verifies the signature and looks up the user (`id`, `email`,
`role`, `isActive` only — no memberships) and performs no session lookup;
every failure, including a thrown verification error, falls through to
`next()` with no context. -/
def optionalAuth (verify : String → Option JwtClaims) (db : DB)
    (authHeader : Option String) : Option AuthUser :=
  match extractToken authHeader with
  | none => none
  | some token =>
    match verify token with
    | none => none
    | some decoded =>
      match db.users.find? (userPred decoded) with
      | none => none
      | some user =>
        if user.isActive then
          some { id := user.id, email := user.email, role := user.role,
                 organizationId := none }
        else none

/-- The `POST /logout` handler (src/backend/src/routes/auth.ts, lines
184-200): `userSession.deleteMany({ where: { token } })` for the bearer
token, if one was presented; always answers success. -/
def logout (db : DB) (authHeader : Option String) : DB :=
  match extractToken authHeader with
  | none => db
  | some token =>
    { db with userSessions := db.userSessions.filter (fun s => !(s.token == token)) }

/-- The session TTL used by register/login: `expiresAt.setDate(getDate() + 7)`,
seven days in milliseconds. -/
def sevenDays : Nat := 7 * 24 * 60 * 60 * 1000

/-- Response payload of register/login: the user identity together with
the issued token and its expiry (the handler additionally echoes profile
fields of the same user row). -/
structure AuthPayload where
  userId : String
  email : String
  token : String
  expiresAt : Nat
deriving DecidableEq, Repr

/-- The `POST /register` handler (src/backend/src/routes/auth.ts, lines
27-100).  `validationOk` is the outcome of the external
`express-validator` chain (`registerValidation`), `hashFn` the external
`bcrypt.hash(·, 12)`, `sign` the external `jwt.sign({userId, email}, ...)`
keyed on (userId, email), `genId` the id Prisma generates for the new row.
On a duplicate email the handler throws `CustomError(409)` before any
write; otherwise it creates one User row and one UserSession row. -/
def register (hashFn : String → String) (sign : String → String → String)
    (genId : String) (db : DB) (now : Nat) (validationOk : Bool)
    (email password firstName lastName : String) (company : Option String) :
    ApiResult AuthPayload × DB :=
  if validationOk = false then (.err "Validation failed" 400, db)
  else
    match db.users.find? (fun u => u.email == email) with
    | some _ => (.err "User already exists with this email" 409, db)
    | none =>
      let user : User :=
        { id := genId, email := email, password := hashFn password,
          firstName := firstName, lastName := lastName, company := company,
          role := "USER", isActive := true }
      let token := sign user.id user.email
      let expiresAt := now + sevenDays
      (.ok 201 { userId := user.id, email := user.email, token := token,
                 expiresAt := expiresAt },
       { db with users := user :: db.users,
                 userSessions :=
                   { userId := user.id, token := token, expiresAt := expiresAt }
                     :: db.userSessions })

/-- The `POST /login` handler (src/backend/src/routes/auth.ts, lines
103-181).  `compare` is the external `bcrypt.compare` collaborator, `sign`
the external `jwt.sign`.  Unknown email and inactive user are rejected by
one guard (`!user || !user.isActive`), password mismatch by the next; both
throw `CustomError('Invalid credentials', 401)`.  On success one
UserSession row is created. -/
def login (compare : String → String → Bool) (sign : String → String → String)
    (db : DB) (now : Nat) (validationOk : Bool) (email password : String) :
    ApiResult AuthPayload × DB :=
  if validationOk = false then (.err "Validation failed" 400, db)
  else
    match db.users.find? (fun u => u.email == email) with
    | none => (.err "Invalid credentials" 401, db)
    | some user =>
      if user.isActive = false then (.err "Invalid credentials" 401, db)
      else if compare password user.password = false then
        (.err "Invalid credentials" 401, db)
      else
        let token := sign user.id user.email
        let expiresAt := now + sevenDays
        (.ok 200 { userId := user.id, email := user.email, token := token,
                   expiresAt := expiresAt },
         { db with userSessions :=
             { userId := user.id, token := token, expiresAt := expiresAt }
               :: db.userSessions })

/-- The membership-lookup predicate used by the organization handlers:
`organizationUser.findUnique({ where: { userId_organizationId: ... } })`. -/
def membershipPred (userId organizationId : String) : OrganizationUser → Bool :=
  fun m => m.userId == userId && m.organizationId == organizationId

/-- Response data of `GET /organizations/:organizationId`: the
organization row together with the caller's role in it (the handler also
attaches relation counts, which are derived data). -/
structure OrganizationDetail where
  organization : Organization
  userRole : String
deriving DecidableEq, Repr

/-- The `GET /organizations/:organizationId` handler
(src/backend/src/routes/organizations.ts, lines 70-110): look up the
caller's membership in the target organization; without one, throw
`CustomError('Organization not found or access denied', 404)` — the same
response whether or not the organization exists.  With one, return the
organization row (fetched through the membership's `include`; referential
integrity guarantees it exists, so the defensive second 404 branch is
unreachable in well-formed stores). -/
def getOrganization (db : DB) (userId organizationId : String) :
    ApiResult OrganizationDetail :=
  match db.organizationUsers.find? (membershipPred userId organizationId) with
  | none => .err "Organization not found or access denied" 404
  | some orgUser =>
    match db.organizations.find? (fun o => o.id == organizationId) with
    | none => .err "Organization not found or access denied" 404
    | some org => .ok 200 { organization := org, userRole := orgUser.role }

/-- The `PUT /organizations/:organizationId` handler
(src/backend/src/routes/organizations.ts, lines 113-156): requires a
membership with role OWNER or ADMIN, else
`CustomError('Insufficient permissions', 403)`; then updates the provided
fields (`name` only when truthy, `description`/`industry` whenever
present).  A missing organization row would surface as a store error
(500); that branch is unreachable in well-formed stores. -/
def updateOrganization (db : DB) (userId organizationId : String)
    (validationOk : Bool) (name description industry : Option String) :
    ApiResult Organization × DB :=
  if validationOk = false then (.err "Validation failed" 400, db)
  else
    match db.organizationUsers.find? (membershipPred userId organizationId) with
    | none => (.err "Insufficient permissions" 403, db)
    | some orgUser =>
      if (orgUser.role == "OWNER" || orgUser.role == "ADMIN") = false then
        (.err "Insufficient permissions" 403, db)
      else
        match db.organizations.find? (fun o => o.id == organizationId) with
        | none => (.err "Record to update not found" 500, db)
        | some org =>
          let updated : Organization :=
            { org with
              name := match name with
                      | some n => if n = "" then org.name else n
                      | none => org.name,
              description := match description with
                             | some d => some d
                             | none => org.description,
              industry := match industry with
                          | some i => some i
                          | none => org.industry }
          (.ok 200 updated,
           { db with organizations :=
               db.organizations.map (fun o => if o.id == organizationId then updated else o) })

/-- The `POST /organizations/:organizationId/users` handler
(src/backend/src/routes/organizations.ts, lines 159-234): requires an
OWNER/ADMIN membership of the caller (403 otherwise), then finds the
target user by email (404), rejects an existing membership (409), and
otherwise creates the membership row. -/
def addOrganizationUser (db : DB) (userId organizationId : String)
    (validationOk : Bool) (email role : String) :
    ApiResult OrganizationUser × DB :=
  if validationOk = false then (.err "Validation failed" 400, db)
  else
    match db.organizationUsers.find? (membershipPred userId organizationId) with
    | none => (.err "Insufficient permissions" 403, db)
    | some orgUser =>
      if (orgUser.role == "OWNER" || orgUser.role == "ADMIN") = false then
        (.err "Insufficient permissions" 403, db)
      else
        match db.users.find? (fun u => u.email == email) with
        | none => (.err "User not found" 404, db)
        | some target =>
          match db.organizationUsers.find? (membershipPred target.id organizationId) with
          | some _ => (.err "User already in organization" 409, db)
          | none =>
            let newOrgUser : OrganizationUser :=
              { userId := target.id, organizationId := organizationId, role := role }
            (.ok 201 newOrgUser,
             { db with organizationUsers := newOrgUser :: db.organizationUsers })

/-- Pagination envelope returned by the list endpoints. -/
structure Pagination where
  page : Nat
  limit : Nat
  total : Nat
  pages : Nat
deriving DecidableEq, Repr

/-- Response data of `GET /suppliers`. -/
structure SupplierListData where
  suppliers : List Supplier
  pagination : Pagination
deriving DecidableEq, Repr

/-- Stable insertion of a supplier into a list already sorted by
`createdAt` descending — the embedding of `orderBy: { createdAt: 'desc' }`. -/
def insertByCreatedAtDesc (s : Supplier) : List Supplier → List Supplier
  | [] => [s]
  | t :: ts =>
    if t.createdAt ≤ s.createdAt then s :: t :: ts
    else t :: insertByCreatedAtDesc s ts

/-- Sort a supplier list by `createdAt` descending. -/
def orderByCreatedAtDesc (l : List Supplier) : List Supplier :=
  l.foldr insertByCreatedAtDesc []

/-- The `GET /suppliers` handler (src/unnamed/part_005, lines 43-96).
`queryOrganizationId` is the client-supplied `organizationId` query
parameter.  The handler looks up the caller's first membership
(`organizationUser.findFirst({ where: { userId } })`); with none it
returns an empty list.  Otherwise the filter organization is
`organizationId || userOrg.organizationId` — the client-supplied value
when truthy, with no check that the caller is a member of it — and the
matching suppliers are returned ordered by `createdAt` descending with
`skip = (page-1)*limit`, `take = limit`. -/
def getSuppliers (db : DB) (userId : String) (queryOrganizationId : Option String)
    (page limit : Nat) : ApiResult SupplierListData :=
  match db.organizationUsers.find? (fun m => m.userId == userId) with
  | none =>
    .ok 200 { suppliers := [],
              pagination := { page := 1, limit := 10, total := 0, pages := 0 } }
  | some userOrg =>
    let orgId :=
      match queryOrganizationId with
      | some q => if q = "" then userOrg.organizationId else q
      | none => userOrg.organizationId
    let rows := db.suppliers.filter (fun s => s.organizationId == orgId)
    let skip := (page - 1) * limit
    let pageRows := ((orderByCreatedAtDesc rows).drop skip).take limit
    let total := rows.length
    .ok 200 { suppliers := pageRows,
              pagination := { page := page, limit := limit, total := total,
                              pages := (total + limit - 1) / limit } }

/-- Request body of `POST /suppliers` after validation. -/
structure SupplierBody where
  name : String
  country : String
  industry : Option String
  organizationId : String
deriving DecidableEq, Repr

/-- The `POST /suppliers` handler (src/unnamed/part_005, lines 10-40).
`validationOk` is the outcome of the `express-validator` chain (name and
country non-empty, `organizationId` a UUID), `genId` the Prisma-generated
row id, `now` the creation timestamp.  The handler performs no membership
or role check: it creates the supplier under the body's `organizationId`
as given and never consults the caller's identity. -/
def createSupplier (genId : String) (db : DB) (now : Nat) (validationOk : Bool)
    (body : SupplierBody) : ApiResult Supplier × DB :=
  if validationOk = false then (.err "Validation failed" 400, db)
  else
    let supplier : Supplier :=
      { id := genId, name := body.name, country := body.country,
        industry := body.industry, organizationId := body.organizationId,
        createdAt := now }
    (.ok 201 supplier, { db with suppliers := supplier :: db.suppliers })

/-- The per-alert update applied by
`alert.updateMany({ where: { id: alertId, userId }, data: { isRead: true } })`. -/
def markReadUpdate (userId alertId : String) (a : Alert) : Alert :=
  if a.id == alertId && a.userId == userId then { a with isRead := true } else a

/-- The `PATCH /alerts/:alertId/read` handler (src/unnamed/part_004, lines
51-74): `updateMany` sets `isRead := true` on every alert matching
`(id = alertId, userId)`; when its count is zero the handler throws a bare
`Error('Alert not found')` (surfaced by the boundary as a 500), otherwise
it answers success. -/
def markAlertRead (db : DB) (userId alertId : String) : ApiResult String × DB :=
  let matching := db.alerts.filter (fun a => a.id == alertId && a.userId == userId)
  let db2 := { db with alerts := db.alerts.map (markReadUpdate userId alertId) }
  if matching.length = 0 then (.err "Alert not found" 500, db2)
  else (.ok 200 "Alert marked as read", db2)

/-! Concrete stores and request inputs used by the theorems below. -/

/-- User `user-b`, active, a MEMBER of `org-2` only. -/
def c1userB : User :=
  { id := "user-b", email := "b@example.com", password := "h", firstName := "B",
    lastName := "B", company := none, role := "USER", isActive := true }

/-- A supplier owned by `org-1`. -/
def c1supplier : Supplier :=
  { id := "supplier-1", name := "S1", country := "Brazil", industry := none,
    organizationId := "org-1", createdAt := 0 }

/-- A store with two organizations, user `user-b` a member of `org-2` only,
and one supplier owned by `org-1`. -/
def c1db : DB :=
  { users := [c1userB],
    organizationUsers := [{ userId := "user-b", organizationId := "org-2", role := "MEMBER" }],
    userSessions := [],
    organizations :=
      [{ id := "org-1", name := "O1", description := none, industry := none },
       { id := "org-2", name := "O2", description := none, industry := none }],
    suppliers := [c1supplier],
    alerts := [] }

/-- C1: REFUTED ON THE CODE (tenant-isolation bug in the suppliers routes).
User `user-b` holds no membership in `org-1`, yet (i) `GET /suppliers`
with the client-supplied query `organizationId=org-1` returns `org-1`'s
supplier rows — the handler substitutes the client value into the filter
(`organizationId || userOrg.organizationId`) without checking it against
the caller's membership set — and (ii) `POST /suppliers` with body
`organizationId=org-1` succeeds with 201 and inserts a supplier owned by
`org-1`, the handler performing no membership check at all.  Both
contradict the claim that reads and writes of tenant-owned resources are
restricted to organizations the caller has a membership in. -/
theorem suppliers_cross_tenant_access_not_prevented :
    (∀ m ∈ c1db.organizationUsers, ¬(m.userId = "user-b" ∧ m.organizationId = "org-1")) ∧
    getSuppliers c1db "user-b" (some "org-1") 1 10 =
      .ok 200 { suppliers := [c1supplier],
                pagination := { page := 1, limit := 10, total := 1, pages := 1 } } ∧
    (createSupplier "supplier-2" c1db 5 true
        { name := "N", country := "C", industry := none,
          organizationId := "org-1" }).1.statusOf = 201 ∧
    ∃ s ∈ (createSupplier "supplier-2" c1db 5 true
        { name := "N", country := "C", industry := none,
          organizationId := "org-1" }).2.suppliers,
      s.id = "supplier-2" ∧ s.organizationId = "org-1" := by
  decide

/-- C2: for every request whose bearer token's signature still verifies,
if every session row holding that token value has already expired (in
particular if no such row exists at all, e.g. after logout deleted it),
the Session Validator rejects the request with some 401 error — the
store-backed session check is enforced on top of signature validity. -/
theorem revoked_or_expired_session_rejected
    (verify : String → Option JwtClaims) (db : DB) (now : Nat)
    (authHeader : Option String) (token : String) (claims : JwtClaims)
    (htok : extractToken authHeader = some token)
    (hsig : verify token = some claims)
    (hsess : ∀ s ∈ db.userSessions, s.token = token → s.expiresAt ≤ now) :
    ∃ msg, authenticateToken verify db now authHeader = .err msg 401 := by
  unfold authenticateToken
  simp only [htok, hsig]
  cases hu : db.users.find? (userPred claims) with
  | none => exact ⟨"User not found or inactive", rfl⟩
  | some user =>
    have hfind : db.userSessions.find? (sessPred user token now) = none := by
      rw [List.find?_eq_none]
      intro s hs
      unfold sessPred
      by_cases ht : s.token = token
      · have : s.expiresAt ≤ now := hsess s hs ht
        simp [ht, Nat.not_lt.mpr this]
      · simp [ht]
    by_cases ha : user.isActive = false
    · exact ⟨"User not found or inactive", by simp [ha]⟩
    · exact ⟨"Session expired", by simp [ha, hfind]⟩

/-- The verifier used by the C2 witness: accepts exactly the token
`tok-2` with user-b's claims. -/
def c2verify : String → Option JwtClaims :=
  fun t => if t = "tok-2" then some { userId := "user-b", email := "b@example.com" } else none

/-- Store for the C2 witness: user-b is active but their only session row
for `tok-2` expired at time 100. -/
def c2db : DB :=
  { users := [c1userB],
    organizationUsers := [{ userId := "user-b", organizationId := "org-2", role := "MEMBER" }],
    userSessions := [{ userId := "user-b", token := "tok-2", expiresAt := 100 }],
    organizations := [], suppliers := [], alerts := [] }

/-- Witness for C2 at a concrete store: the signature of `tok-2` verifies
but its session row is expired at `now = 100`, and the validator rejects
with 401. -/
theorem revoked_or_expired_session_rejected_witness :
    (extractToken (some "Bearer tok-2") = some "tok-2" ∧
     c2verify "tok-2" = some { userId := "user-b", email := "b@example.com" } ∧
     ∀ s ∈ c2db.userSessions, s.token = "tok-2" → s.expiresAt ≤ 100) ∧
    ∃ msg, authenticateToken c2verify c2db 100 (some "Bearer tok-2") = .err msg 401 :=
  ⟨⟨by decide, by decide, by decide⟩,
   revoked_or_expired_session_rejected c2verify c2db 100 (some "Bearer tok-2") "tok-2"
     { userId := "user-b", email := "b@example.com" } (by decide) (by decide) (by decide)⟩

/-- Verifier for the C3 counterexample: accepts exactly `tok-3` with
user-c's claims. -/
def c3verify : String → Option JwtClaims :=
  fun t => if t = "tok-3" then some { userId := "user-c", email := "c@example.com" } else none

/-- Store for the C3 counterexample: user-c exists but is inactive, and no
session row exists. -/
def c3db : DB :=
  { users := [{ id := "user-c", email := "c@example.com", password := "h", firstName := "C",
                lastName := "C", company := none, role := "USER", isActive := false }],
    organizationUsers := [], userSessions := [],
    organizations := [], suppliers := [], alerts := [] }

/-- C3 counterexample: the source validator does NOT run the checks in the
claimed order.  On a store where the user is inactive AND no session row
exists, the claimed order (session lookup at step 3, user check at step 4)
would reject at the session step with `Session expired`, but the source
rejects with `User not found or inactive` — the user lookup runs before
the session lookup, so the two orders are observably different. -/
theorem validator_checks_user_before_session :
    authenticateToken c3verify c3db 0 (some "Bearer tok-3") =
      .err "User not found or inactive" 401 ∧
    authenticateTokenSpecOrder c3verify c3db 0 (some "Bearer tok-3") =
      .err "Session expired" 401 ∧
    authenticateToken c3verify c3db 0 (some "Bearer tok-3") ≠
      authenticateTokenSpecOrder c3verify c3db 0 (some "Bearer tok-3") := by
  decide

/-- C3 (amended): the Session Validator performs its checks in exactly
this order: (1) extract the bearer token and fail fast if absent; (2)
verify the token's signature and embedded expiry claim; (3) look up the
User by id and require `isActive == true`, loading the memberships in the
same query; (4) look up the Session row by user id and token value and
require `expiresAt > now`; (5) select the first membership found as the
current organization of the attached context.  Each conjunct characterizes
one stage, guarded only by the outcomes of the earlier stages — in
particular an inactive or missing user is rejected whatever the session
store holds, and the session stage is reached only with an active user. -/
theorem authenticateToken_check_order
    (verify : String → Option JwtClaims) (db : DB) (now : Nat) (authHeader : Option String) :
    (extractToken authHeader = none →
      authenticateToken verify db now authHeader = .err "Access token required" 401) ∧
    (∀ token, extractToken authHeader = some token → verify token = none →
      authenticateToken verify db now authHeader = .err "Invalid token" 401) ∧
    (∀ token claims, extractToken authHeader = some token → verify token = some claims →
      db.users.find? (userPred claims) = none →
      authenticateToken verify db now authHeader = .err "User not found or inactive" 401) ∧
    (∀ token claims user, extractToken authHeader = some token → verify token = some claims →
      db.users.find? (userPred claims) = some user → user.isActive = false →
      authenticateToken verify db now authHeader = .err "User not found or inactive" 401) ∧
    (∀ token claims user, extractToken authHeader = some token → verify token = some claims →
      db.users.find? (userPred claims) = some user → user.isActive = true →
      db.userSessions.find? (sessPred user token now) = none →
      authenticateToken verify db now authHeader = .err "Session expired" 401) ∧
    (∀ token claims user s, extractToken authHeader = some token → verify token = some claims →
      db.users.find? (userPred claims) = some user → user.isActive = true →
      db.userSessions.find? (sessPred user token now) = some s →
      authenticateToken verify db now authHeader =
        .ok { id := user.id, email := user.email, role := user.role,
              organizationId :=
                ((db.organizationUsers.filter (fun m => m.userId == user.id)).head?).map
                  (fun m => m.organizationId) }) := by
  refine ⟨?_, ?_, ?_, ?_, ?_, ?_⟩
  · intro h1
    unfold authenticateToken
    simp [h1]
  · intro token h1 h2
    unfold authenticateToken
    simp [h1, h2]
  · intro token claims h1 h2 h3
    unfold authenticateToken
    simp [h1, h2, h3]
  · intro token claims user h1 h2 h3 h4
    unfold authenticateToken
    simp [h1, h2, h3, h4]
  · intro token claims user h1 h2 h3 h4 h5
    unfold authenticateToken
    simp [h1, h2, h3, h4, h5]
  · intro token claims user s h1 h2 h3 h4 h5
    unfold authenticateToken
    simp [h1, h2, h3, h4, h5]

/-- Active user for the C3 witness store. -/
def w3user : User :=
  { id := "user-w", email := "w@example.com", password := "h", firstName := "W",
    lastName := "W", company := none, role := "USER", isActive := true }

/-- Live session for the C3 witness store. -/
def w3sess : UserSession :=
  { userId := "user-w", token := "tok-w3", expiresAt := 10 }

/-- Verifier for the C3 witness. -/
def w3verify : String → Option JwtClaims :=
  fun t => if t = "tok-w3" then some { userId := "user-w", email := "w@example.com" } else none

/-- Store for the C3 witness: active user, live session, one membership. -/
def w3db : DB :=
  { users := [w3user],
    organizationUsers := [{ userId := "user-w", organizationId := "org-w", role := "OWNER" }],
    userSessions := [w3sess],
    organizations := [], suppliers := [], alerts := [] }

/-- Witness for the amended C3 at a concrete accepting run: all five
stages pass and the context carries the first membership's organization. -/
theorem authenticateToken_check_order_witness :
    authenticateToken w3verify w3db 0 (some "Bearer tok-w3") =
      .ok { id := "user-w", email := "w@example.com", role := "USER",
            organizationId := some "org-w" } := by
  have h := (authenticateToken_check_order w3verify w3db 0 (some "Bearer tok-w3")).2.2.2.2.2
    "tok-w3" { userId := "user-w", email := "w@example.com" } w3user w3sess
    (by decide) (by decide) (by decide) (by decide) (by decide)
  exact h.trans (by decide)

/-- C4: when the caller holds no membership in the target organization,
`GET /organizations/:organizationId` answers the constant
`NotFound`-shaped 404 error, and the very same response is produced on
the store from which the organization row has been removed — an
existing-but-invisible organization is indistinguishable from a
nonexistent one. -/
theorem org_scoped_get_not_found_for_non_member
    (db : DB) (userId organizationId : String)
    (h : ∀ m ∈ db.organizationUsers, ¬(m.userId = userId ∧ m.organizationId = organizationId)) :
    getOrganization db userId organizationId =
      .err "Organization not found or access denied" 404 ∧
    getOrganization
        { db with organizations := db.organizations.filter (fun o => !(o.id == organizationId)) }
        userId organizationId =
      getOrganization db userId organizationId := by
  have hfind : db.organizationUsers.find? (membershipPred userId organizationId) = none := by
    rw [List.find?_eq_none]
    intro m hm
    simp only [membershipPred, Bool.and_eq_true, beq_iff_eq]
    exact h m hm
  constructor
  · unfold getOrganization
    rw [hfind]
  · unfold getOrganization
    rw [hfind]

/-- Store for the C4 witness: organization `org-4` exists, user-d is a
member of a different organization only. -/
def c4db : DB :=
  { users := [{ id := "user-d", email := "d@example.com", password := "h", firstName := "D",
                lastName := "D", company := none, role := "USER", isActive := true }],
    organizationUsers := [{ userId := "user-d", organizationId := "org-other", role := "OWNER" }],
    userSessions := [],
    organizations := [{ id := "org-4", name := "O4", description := none, industry := none }],
    suppliers := [], alerts := [] }

/-- Witness for C4: `org-4` exists in the store, user-d is no member of
it, and the lookup answers 404 (not 403). -/
theorem org_scoped_get_not_found_for_non_member_witness :
    (∀ m ∈ c4db.organizationUsers, ¬(m.userId = "user-d" ∧ m.organizationId = "org-4")) ∧
    (∃ o ∈ c4db.organizations, o.id = "org-4") ∧
    getOrganization c4db "user-d" "org-4" =
      .err "Organization not found or access denied" 404 :=
  ⟨by decide, by decide,
   (org_scoped_get_not_found_for_non_member c4db "user-d" "org-4" (by decide)).1⟩

/-- Organization of the C5 store. -/
def c5org : Organization :=
  { id := "org-5", name := "O5", description := none, industry := none }

/-- Store for C5: user-v is a VIEWER of `org-5`; user-t exists outside it. -/
def c5db : DB :=
  { users :=
      [{ id := "user-v", email := "v@example.com", password := "h", firstName := "V",
         lastName := "V", company := none, role := "USER", isActive := true },
       { id := "user-t", email := "t@example.com", password := "h", firstName := "T",
         lastName := "T", company := none, role := "USER", isActive := true }],
    organizationUsers := [{ userId := "user-v", organizationId := "org-5", role := "VIEWER" }],
    userSessions := [],
    organizations := [c5org],
    suppliers := [], alerts := [] }

/-- C5: REFUTED ON THE CODE for resource creation.  A VIEWER's mutations
through the organization routes are rejected with 403 and leave the store
unchanged, and the VIEWER's read succeeds — as claimed.  But
`POST /suppliers`, a mutating operation creating an O-scoped resource,
carries no role check at all: as the VIEWER user-v it succeeds with 201
instead of the claimed 403. -/
theorem viewer_mutation_gating_incomplete :
    (updateOrganization c5db "user-v" "org-5" true (some "New") none none).1 =
      .err "Insufficient permissions" 403 ∧
    (updateOrganization c5db "user-v" "org-5" true (some "New") none none).2 = c5db ∧
    (addOrganizationUser c5db "user-v" "org-5" true "t@example.com" "MEMBER").1 =
      .err "Insufficient permissions" 403 ∧
    getOrganization c5db "user-v" "org-5" =
      .ok 200 { organization := c5org, userRole := "VIEWER" } ∧
    (createSupplier "supplier-v" c5db 9 true
        { name := "S", country := "C", industry := none, organizationId := "org-5" }).1 =
      .ok 201 { id := "supplier-v", name := "S", country := "C", industry := none,
                organizationId := "org-5", createdAt := 9 } := by
  decide

/-- C6: whenever the login lookup would not succeed — the email matches
no user row, the matching user is inactive, or the bcrypt comparison
fails — the handler's answer is the one constant value
`(Invalid credentials, 401)` with the store unchanged, so the three
failure causes are indistinguishable to the caller. -/
theorem login_failures_indistinguishable
    (compare : String → String → Bool) (sign : String → String → String)
    (db : DB) (now : Nat) (email password : String)
    (h : ∀ u ∈ db.users, u.email = email →
          u.isActive = false ∨ compare password u.password = false) :
    login compare sign db now true email password = (.err "Invalid credentials" 401, db) := by
  unfold login
  cases hu : db.users.find? (fun x => x.email == email) with
  | none => simp [hu]
  | some user =>
    have hmem : user ∈ db.users := List.mem_of_find?_eq_some hu
    have hemail : user.email = email := by
      have := List.find?_some hu
      simpa using this
    rcases h user hmem hemail with ha | hc
    · simp [hu, ha]
    · by_cases ha2 : user.isActive = false
      · simp [hu, ha2]
      · simp [hu, ha2, hc]

/-- A concrete stand-in for `bcrypt.compare` used by the C6 witness. -/
def c6cmp : String → String → Bool := fun password stored => stored == "hashed:" ++ password

/-- A concrete stand-in for `jwt.sign` used by the C6 witness. -/
def c6sign : String → String → String := fun uid em => uid ++ "|" ++ em

/-- C6 witness store: no user at all. -/
def c6dbUnknown : DB :=
  { users := [], organizationUsers := [], userSessions := [],
    organizations := [], suppliers := [], alerts := [] }

/-- C6 witness store: the user exists with the right password but is
inactive. -/
def c6dbInactive : DB :=
  { users := [{ id := "user-i", email := "l@example.com", password := "hashed:pw",
                firstName := "L", lastName := "L", company := none, role := "USER",
                isActive := false }],
    organizationUsers := [], userSessions := [],
    organizations := [], suppliers := [], alerts := [] }

/-- C6 witness store: the user exists and is active but the stored hash
does not match the presented password. -/
def c6dbMismatch : DB :=
  { users := [{ id := "user-m", email := "l@example.com", password := "hashed:other",
                firstName := "L", lastName := "L", company := none, role := "USER",
                isActive := true }],
    organizationUsers := [], userSessions := [],
    organizations := [], suppliers := [], alerts := [] }

/-- Witness for C6: the three concrete failure causes — unknown email,
inactive user, password mismatch — all produce the literally identical
response. -/
theorem login_failures_indistinguishable_witness :
    login c6cmp c6sign c6dbUnknown 0 true "l@example.com" "pw" =
      (.err "Invalid credentials" 401, c6dbUnknown) ∧
    login c6cmp c6sign c6dbInactive 0 true "l@example.com" "pw" =
      (.err "Invalid credentials" 401, c6dbInactive) ∧
    login c6cmp c6sign c6dbMismatch 0 true "l@example.com" "pw" =
      (.err "Invalid credentials" 401, c6dbMismatch) :=
  ⟨login_failures_indistinguishable c6cmp c6sign c6dbUnknown 0 "l@example.com" "pw" (by decide),
   login_failures_indistinguishable c6cmp c6sign c6dbInactive 0 "l@example.com" "pw" (by decide),
   login_failures_indistinguishable c6cmp c6sign c6dbMismatch 0 "l@example.com" "pw" (by decide)⟩

/-- Verifier for the C7 counterexample. -/
def c7verify : String → Option JwtClaims :=
  fun t => if t = "tok-7" then some { userId := "user-o", email := "o@example.com" } else none

/-- Store for the C7 counterexample: user-o is active with a membership,
but NO session row exists for the presented token. -/
def c7db : DB :=
  { users := [{ id := "user-o", email := "o@example.com", password := "h", firstName := "O",
                lastName := "O", company := none, role := "USER", isActive := true }],
    organizationUsers := [{ userId := "user-o", organizationId := "org-7", role := "OWNER" }],
    userSessions := [],
    organizations := [], suppliers := [], alerts := [] }

/-- C7 counterexample: the optional-auth middleware does NOT perform the
same validation chain as the strict validator.  With a valid signature,
an active user, but no live session row (e.g. after logout), the strict
validator rejects with 401 while `optionalAuth` still attaches a context
— and that context also lacks the organization the strict validator would
have attached, because `optionalAuth` loads no memberships. -/
theorem optionalAuth_skips_session_check :
    optionalAuth c7verify c7db (some "Bearer tok-7") =
      some { id := "user-o", email := "o@example.com", role := "USER",
             organizationId := none } ∧
    authenticateToken c7verify c7db 0 (some "Bearer tok-7") = .err "Session expired" 401 := by
  decide

/-- C7 (amended): `optionalAuth` performs only the first stages of the
validation chain — token extraction, signature verification, and the
active-user lookup — with no session-store lookup and no membership load;
it never rejects, and it attaches a context exactly when a token is
present, its signature verifies, and the referenced user exists and is
active; the attached context is `{id, email, role}` with no
`organizationId`. -/
theorem optionalAuth_characterization
    (verify : String → Option JwtClaims) (db : DB) (authHeader : Option String)
    (ctx : AuthUser) :
    optionalAuth verify db authHeader = some ctx ↔
      ∃ token claims user,
        extractToken authHeader = some token ∧ verify token = some claims ∧
        db.users.find? (userPred claims) = some user ∧ user.isActive = true ∧
        ctx = { id := user.id, email := user.email, role := user.role,
                organizationId := none } := by
  unfold optionalAuth
  cases ht : extractToken authHeader with
  | none => simp [ht]
  | some token =>
    cases hv : verify token with
    | none => simp [ht, hv]
    | some claims =>
      cases hu : db.users.find? (userPred claims) with
      | none => simp [ht, hv, hu]
      | some user =>
        by_cases ha : user.isActive
        · simp [ht, hv, hu, ha]
          exact eq_comm
        · simp [ht, hv, hu, ha]

/-- Active user for the C7 witness. -/
def w7user : User :=
  { id := "user-p", email := "p@example.com", password := "h", firstName := "P",
    lastName := "P", company := none, role := "USER", isActive := true }

/-- Verifier for the C7 witness. -/
def w7verify : String → Option JwtClaims :=
  fun t => if t = "tok-w7" then some { userId := "user-p", email := "p@example.com" } else none

/-- Store for the C7 witness. -/
def w7db : DB :=
  { users := [w7user],
    organizationUsers := [], userSessions := [],
    organizations := [], suppliers := [], alerts := [] }

/-- Witness for the amended C7 at a concrete attaching run. -/
theorem optionalAuth_characterization_witness :
    optionalAuth w7verify w7db (some "Bearer tok-w7") =
      some { id := "user-p", email := "p@example.com", role := "USER",
             organizationId := none } :=
  (optionalAuth_characterization w7verify w7db (some "Bearer tok-w7")
      { id := "user-p", email := "p@example.com", role := "USER", organizationId := none }).mpr
    ⟨"tok-w7", { userId := "user-p", email := "p@example.com" }, w7user,
     by decide, by decide, by decide, by decide, by decide⟩

/-- C8: when some user row already carries the email, `POST /register`
answers `Conflict` (409) and returns the store unchanged — the existing
user row, its sessions, and every other table are exactly as before, and
no new User or Session row is created. -/
theorem duplicate_register_conflict
    (hashFn : String → String) (sign : String → String → String) (genId : String)
    (db : DB) (now : Nat) (email password firstName lastName : String)
    (company : Option String)
    (h : ∃ u ∈ db.users, u.email = email) :
    register hashFn sign genId db now true email password firstName lastName company =
      (.err "User already exists with this email" 409, db) := by
  unfold register
  obtain ⟨u, hm, he⟩ := h
  cases hu : db.users.find? (fun x => x.email == email) with
  | none =>
    rw [List.find?_eq_none] at hu
    have := hu u hm
    simp [he] at this
  | some _ => simp [hu]

/-- A concrete stand-in for `bcrypt.hash` used by the C8 witness. -/
def c8hash : String → String := fun s => "hashed:" ++ s

/-- A concrete stand-in for `jwt.sign` used by the C8 witness. -/
def c8sign : String → String → String := fun uid em => uid ++ "|" ++ em

/-- The empty store the C8 witness starts from. -/
def c8db0 : DB :=
  { users := [], organizationUsers := [], userSessions := [],
    organizations := [], suppliers := [], alerts := [] }

/-- Store after the first, successful registration of `a@example.com`. -/
def c8db1 : DB :=
  (register c8hash c8sign "user-r" c8db0 0 true "a@example.com" "password123" "A" "B" none).2

/-- Witness for C8: after registering `a@example.com` once, a second
registration with the same email answers 409 with the store unchanged. -/
theorem duplicate_register_conflict_witness :
    (∃ u ∈ c8db1.users, u.email = "a@example.com") ∧
    register c8hash c8sign "user-r2" c8db1 50 true "a@example.com" "password456" "A2" "B2" none =
      (.err "User already exists with this email" 409, c8db1) :=
  ⟨by decide,
   duplicate_register_conflict c8hash c8sign "user-r2" c8db1 50 "a@example.com" "password456"
     "A2" "B2" none (by decide)⟩

/-- The `updateMany` body preserves the match condition: it never changes
an alert's `id` or `userId`. -/
theorem markReadUpdate_preserves_match (userId alertId : String) (a : Alert) :
    ((markReadUpdate userId alertId a).id == alertId &&
       (markReadUpdate userId alertId a).userId == userId) =
      (a.id == alertId && a.userId == userId) := by
  unfold markReadUpdate
  by_cases h : (a.id == alertId && a.userId == userId) = true
  · simp [h]
  · simp [h]

/-- The `updateMany` body is idempotent on a single alert. -/
theorem markReadUpdate_idem (userId alertId : String) (a : Alert) :
    markReadUpdate userId alertId (markReadUpdate userId alertId a) =
      markReadUpdate userId alertId a := by
  unfold markReadUpdate
  by_cases h : (a.id == alertId && a.userId == userId) = true
  · simp [h]
  · simp [h]

/-- C9: mark-alert-read is idempotent.  When the store holds an alert with
the given id owned by the given user, the first call succeeds, the second
call succeeds as well (no error), the second call leaves the store exactly
as the first call left it, and after the first call every matching alert
has `isRead = true`. -/
theorem mark_alert_read_idempotent
    (db : DB) (userId alertId : String)
    (h : ∃ a ∈ db.alerts, a.id = alertId ∧ a.userId = userId) :
    (markAlertRead db userId alertId).1 = .ok 200 "Alert marked as read" ∧
    (markAlertRead (markAlertRead db userId alertId).2 userId alertId).1 =
      .ok 200 "Alert marked as read" ∧
    (markAlertRead (markAlertRead db userId alertId).2 userId alertId).2 =
      (markAlertRead db userId alertId).2 ∧
    (∀ a ∈ (markAlertRead db userId alertId).2.alerts,
      a.id = alertId → a.userId = userId → a.isRead = true) := by
  obtain ⟨a0, hm0, hid0, huid0⟩ := h
  have hp0 : (a0.id == alertId && a0.userId == userId) = true := by
    simp [hid0, huid0]
  have hne1 : (db.alerts.filter (fun a => a.id == alertId && a.userId == userId)).length ≠ 0 := by
    intro hzero
    rw [List.length_eq_zero] at hzero
    rw [List.filter_eq_nil_iff] at hzero
    exact absurd hp0 (by simpa using hzero a0 hm0)
  have hmem1 : markReadUpdate userId alertId a0 ∈
      db.alerts.map (markReadUpdate userId alertId) := List.mem_map_of_mem _ hm0
  have hp1 : ((markReadUpdate userId alertId a0).id == alertId &&
      (markReadUpdate userId alertId a0).userId == userId) = true := by
    rw [markReadUpdate_preserves_match]
    exact hp0
  have hne2 : ((db.alerts.map (markReadUpdate userId alertId)).filter
      (fun a => a.id == alertId && a.userId == userId)).length ≠ 0 := by
    intro hzero
    rw [List.length_eq_zero] at hzero
    rw [List.filter_eq_nil_iff] at hzero
    exact absurd hp1 (by simpa using hzero _ hmem1)
  have hmapmap : (db.alerts.map (markReadUpdate userId alertId)).map
      (markReadUpdate userId alertId) = db.alerts.map (markReadUpdate userId alertId) := by
    rw [List.map_map]
    apply List.map_congr_left
    intro a _
    exact markReadUpdate_idem userId alertId a
  refine ⟨?_, ?_, ?_, ?_⟩
  · unfold markAlertRead
    simp only [if_neg hne1]
  · unfold markAlertRead
    simp only [if_neg hne1, if_neg hne2]
  · unfold markAlertRead
    simp only [if_neg hne1, if_neg hne2, hmapmap]
  · unfold markAlertRead
    simp only [if_neg hne1]
    intro a ha hid huid
    obtain ⟨b, hb, hab⟩ := List.mem_map.mp ha
    subst hab
    unfold markReadUpdate at hid huid ⊢
    by_cases hpb : (b.id == alertId && b.userId == userId) = true
    · simp [hpb]
    · simp [hpb] at hid huid ⊢
      simp [hid, huid] at hpb

/-- Store for the C9 witness: one unread alert owned by user-a. -/
def c9db : DB :=
  { users := [], organizationUsers := [], userSessions := [],
    organizations := [], suppliers := [],
    alerts := [{ id := "alert-1", userId := "user-a", organizationId := "org-a",
                 isRead := false }] }

/-- Witness for C9 at a concrete store: both calls succeed and the second
changes nothing. -/
theorem mark_alert_read_idempotent_witness :
    (∃ a ∈ c9db.alerts, a.id = "alert-1" ∧ a.userId = "user-a") ∧
    (markAlertRead c9db "user-a" "alert-1").1 = .ok 200 "Alert marked as read" ∧
    (markAlertRead (markAlertRead c9db "user-a" "alert-1").2 "user-a" "alert-1").1 =
      .ok 200 "Alert marked as read" ∧
    (markAlertRead (markAlertRead c9db "user-a" "alert-1").2 "user-a" "alert-1").2 =
      (markAlertRead c9db "user-a" "alert-1").2 :=
  ⟨by decide,
   (mark_alert_read_idempotent c9db "user-a" "alert-1" (by decide)).1,
   (mark_alert_read_idempotent c9db "user-a" "alert-1" (by decide)).2.1,
   (mark_alert_read_idempotent c9db "user-a" "alert-1" (by decide)).2.2.1⟩

/-- C10: an active user with a valid token and a live session but zero
organization memberships is accepted by the Session Validator, and the
attached Authorization Context carries no organization
(`organizationId = none`) — authentication never requires a membership. -/
theorem zero_membership_context_attached
    (verify : String → Option JwtClaims) (db : DB) (now : Nat) (authHeader : Option String)
    (token : String) (claims : JwtClaims) (user : User) (s : UserSession)
    (h1 : extractToken authHeader = some token)
    (h2 : verify token = some claims)
    (h3 : db.users.find? (userPred claims) = some user)
    (h4 : user.isActive = true)
    (h5 : db.userSessions.find? (sessPred user token now) = some s)
    (h6 : db.organizationUsers.filter (fun m => m.userId == user.id) = []) :
    authenticateToken verify db now authHeader =
      .ok { id := user.id, email := user.email, role := user.role,
            organizationId := none } := by
  unfold authenticateToken
  simp [h1, h2, h3, h4, h5, h6]

/-- Active user for the C10 witness. -/
def w10user : User :=
  { id := "user-z", email := "z@example.com", password := "h", firstName := "Z",
    lastName := "Z", company := none, role := "USER", isActive := true }

/-- Live session for the C10 witness. -/
def w10sess : UserSession :=
  { userId := "user-z", token := "tok-z", expiresAt := 10 }

/-- Verifier for the C10 witness. -/
def w10verify : String → Option JwtClaims :=
  fun t => if t = "tok-z" then some { userId := "user-z", email := "z@example.com" } else none

/-- Store for the C10 witness: active user, live session, zero
memberships. -/
def w10db : DB :=
  { users := [w10user],
    organizationUsers := [], userSessions := [w10sess],
    organizations := [], suppliers := [], alerts := [] }

/-- Witness for C10 at a concrete store. -/
theorem zero_membership_context_attached_witness :
    authenticateToken w10verify w10db 0 (some "Bearer tok-z") =
      .ok { id := "user-z", email := "z@example.com", role := "USER",
            organizationId := none } :=
  zero_membership_context_attached w10verify w10db 0 (some "Bearer tok-z") "tok-z"
    { userId := "user-z", email := "z@example.com" } w10user w10sess
    (by decide) (by decide) (by decide) (by decide) (by decide) (by decide)

end SupplyChainLens
